import Mathlib

/-!
Verification development for the disaster-response core services
(`src/server/services/socialMedia.js`): the social-media feed triage
(`SocialMediaService`) and the location / image pipelines (`GeminiService`).

The JavaScript is shallowly embedded: every service method becomes a pure
Lean function; network calls, the cache and thrown exceptions become explicit
parameters (`Except`, `Option`); JS numbers used for confidences and TTLs
become `Rat`; timestamps become `Int` (epoch milliseconds, the value
`new Date(s).getTime()` yields for the ISO strings the service produces).
JS regular expressions are embedded by a small backtracking engine
(`reMatch`) whose alternation order, greediness and word-boundary semantics
follow ECMAScript; the character classes are interpreted over ASCII, which
covers every string the service builds or matches.
-/

namespace DistResp

/-! ## ASCII character helpers -/

/-- ASCII uppercase letter, the `[A-Z]` class without the `i` flag. -/
def isUpperAZ (c : Char) : Bool := 65 ≤ c.toNat && c.toNat ≤ 90

/-- ASCII lowercase letter, the `[a-z]` class without the `i` flag. -/
def isLowerAZ (c : Char) : Bool := 97 ≤ c.toNat && c.toNat ≤ 122

/-- ASCII digit, the `\d` class. -/
def isDigitC (c : Char) : Bool := 48 ≤ c.toNat && c.toNat ≤ 57

/-- Whitespace as matched by the JS `\s` class (ASCII part plus NBSP;
the service only ever feeds it ASCII). -/
def isWsp (c : Char) : Bool :=
  c == ' ' || c == '\t' || c == '\n' || c == '\r' ||
  c.toNat == 11 || c.toNat == 12 || c.toNat == 160

/-- Word character for the JS `\b` assertion: `[A-Za-z0-9_]`. -/
def isWordChar (c : Char) : Bool :=
  isUpperAZ c || isLowerAZ c || isDigitC c || c == '_'

/-- ASCII lowering, modelling `String.prototype.toLowerCase()` on the ASCII
strings the service handles. -/
def asciiLower (c : Char) : Char :=
  if isUpperAZ c then Char.ofNat (c.toNat + 32) else c

/-- Lowercase a character list. -/
def lowerCL (l : List Char) : List Char := l.map asciiLower

/-- Lowercase a string, as `toLowerCase()`. -/
def lowerStr (s : String) : String := String.mk (lowerCL s.data)

/-- Does the text begin with the given needle (`String.prototype.startsWith`,
case-sensitive)? Arguments: needle then text. -/
def startsWithL : List Char → List Char → Bool
  | [], _ => true
  | _ :: _, [] => false
  | p :: ps, c :: cs => p == c && startsWithL ps cs

/-- Substring containment (`String.prototype.includes`): needle then text. -/
def containsSub (p : List Char) : List Char → Bool
  | [] => startsWithL p []
  | c :: cs => startsWithL p (c :: cs) || containsSub p cs

/-! ## A small ECMAScript-style regex engine

Only the constructs appearing in the service's regex literals are embedded:
character classes, literal characters, concatenation, ordered alternation,
greedy `*` (with `+` as `r r*`), and the `\b` word-boundary assertion.
Matching is backtracking with the ECMAScript preferences: alternatives are
tried left to right and repetitions are greedy; the first overall success
yields the match, exactly as in JS. -/

/-- Character classes used by the service's patterns. -/
inductive CC where
  | upperAZ
  | lowerAZ
  | digit
  | wsp
deriving DecidableEq, Repr

/-- Interpretation of a class; with the `i` flag (`ci = true`) the letter
classes case-fold, as in JS where `/[A-Z]/i` matches any ASCII letter. -/
def ccMatch (ci : Bool) : CC → Char → Bool
  | .upperAZ, c => isUpperAZ c || (ci && isLowerAZ c)
  | .lowerAZ, c => isLowerAZ c || (ci && isUpperAZ c)
  | .digit, c => isDigitC c
  | .wsp, c => isWsp c

/-- Literal character comparison, case-folded under the `i` flag. -/
def chMatch (ci : Bool) (a c : Char) : Bool :=
  a == c || (ci && asciiLower a == asciiLower c)

/-- Regex abstract syntax. -/
inductive RE where
  | eps
  | cls (cc : CC)
  | ch (c : Char)
  | seq (a b : RE)
  | alt (a b : RE)
  | star (a : RE)
  | wb
deriving Repr

/-- The `\b` assertion: the word-character status changes between the
previous character (`none` at the start of the input) and the next one. -/
def atWordBoundary (p : Option Char) (r : List Char) : Bool :=
  let l := match p with | none => false | some c => isWordChar c
  let rt := match r with | [] => false | c :: _ => isWordChar c
  l != rt

/-- Greedy repetition loop. `body` is the matcher of the starred
subexpression; each iteration must consume at least one character (the
ECMAScript repetition rule, which also ends a repetition that matches
empty), so the iteration count — and hence the fuel, reset to the remaining
length at every star entry — is bounded by the remaining input. -/
def starLoop
    (body : Option Char → List Char →
      (Option Char → List Char → Option (List Char)) → Option (List Char)) :
    Nat → Option Char → List Char →
    (Option Char → List Char → Option (List Char)) → Option (List Char)
  | 0, p, r, k => k p r
  | fuel + 1, p, r, k =>
    match body p r
        (fun q s => if s.length < r.length then starLoop body fuel q s k else none) with
    | some v => some v
    | none => k p r

/-- Backtracking matcher in continuation style. `p` is the character just
before the current position (for `\b`), `r` the remaining input, and `k`
the continuation receiving the state after this node; the result carries
the remaining input at the end of the first overall success, so
alternation order and greediness decide matches exactly as in JS. -/
def reMatch (ci : Bool) :
    RE → Option Char → List Char →
    (Option Char → List Char → Option (List Char)) → Option (List Char)
  | .eps, p, r, k => k p r
  | .cls cc, _, r, k =>
    match r with
    | [] => none
    | c :: cs => if ccMatch ci cc c then k (some c) cs else none
  | .ch a, _, r, k =>
    match r with
    | [] => none
    | c :: cs => if chMatch ci a c then k (some c) cs else none
  | .wb, p, r, k => if atWordBoundary p r then k p r else none
  | .seq a b, p, r, k =>
    reMatch ci a p r (fun q s => reMatch ci b q s k)
  | .alt a b, p, r, k =>
    match reMatch ci a p r k with
    | some v => some v
    | none => reMatch ci b p r k
  | .star a, p, r, k => starLoop (reMatch ci a) (r.length + 1) p r k

/-- Try to match `re` exactly at the current position, returning the number
of characters the (greedy, leftmost-preference) match consumes. -/
def reConsumed (ci : Bool) (re : RE) (p : Option Char) (r : List Char) : Option Nat :=
  match reMatch ci re p r (fun _ s => some s) with
  | some s => some (r.length - s.length)
  | none => none

/-- Global scan, as `String.prototype.match` with the `g` flag: walk the
input left to right, record each leftmost match, and resume after it
(advancing one character past an empty match, as `lastIndex` does). -/
def scanFrom (ci : Bool) (re : RE) : Nat → Option Char → List Char → List (List Char)
  | 0, _, _ => []
  | fuel + 1, p, r =>
    match reConsumed ci re p r with
    | some 0 =>
      match r with
      | [] => [[]]
      | c :: cs => [] :: scanFrom ci re fuel (some c) cs
    | some (n + 1) =>
      (r.take (n + 1)) :: scanFrom ci re fuel (r.get? n) (r.drop (n + 1))
    | none =>
      match r with
      | [] => []
      | c :: cs => scanFrom ci re fuel (some c) cs

/-- All matches of `re` in `s` in order, as `s.match(re)` returns for a
global regex (`null` becoming the empty list). -/
def jsMatchAll (ci : Bool) (re : RE) (s : String) : List String :=
  (scanFrom ci re (s.data.length + 1) none s.data).map (fun l => String.mk l)

/-- Is there any match of `re` in `s`? Models the truthiness of
`s.match(re)` for a non-global regex. -/
def jsHasMatch (ci : Bool) (re : RE) (s : String) : Bool :=
  !(jsMatchAll ci re s).isEmpty

/-- Literal word as a regex. -/
def strRE (s : String) : RE :=
  s.data.foldr (fun c r => .seq (.ch c) r) .eps

/-- Ordered alternation of literal words, preserving the declaration order
of the JS alternation. -/
def altStrs : List String → RE
  | [] => .eps
  | [s] => strRE s
  | s :: rest => .alt (strRE s) (altStrs rest)

/-- `r+` as `r r*`. -/
def plusRE (r : RE) : RE := .seq r (.star r)

/-- Chain of regexes in sequence. -/
def seqList : List RE → RE
  | [] => .eps
  | [r] => r
  | r :: rest => .seq r (seqList rest)

/-! ## The five location-pattern regex families

These embed the `locationPatterns` array of `extractLocationWithPatterns`
verbatim, in declaration order, each with its flag (`true` = the `i` flag
was present; all five carry `g`, which is handled by `jsMatchAll`). -/

/-- `[A-Z][a-z]+` (one capitalized word). -/
def capWord : RE := .seq (.cls .upperAZ) (plusRE (.cls .lowerAZ))

/-- `[A-Z][a-z]+(?:\s+[A-Z][a-z]+)*` (capitalized words). -/
def capWords : RE := .seq capWord (.star (.seq (plusRE (.cls .wsp)) capWord))

/-- `\s+` -/
def wsPlus : RE := plusRE (.cls .wsp)

/-- Pattern 1, City-State pairs:
`/\b([A-Z][a-z]+(?:\s+[A-Z][a-z]+)*),\s*([A-Z]{2}|[A-Z][a-z]+)\b/g`. -/
def reCityState : RE :=
  seqList [.wb, capWords, .ch ',', .star (.cls .wsp),
    .alt (.seq (.cls .upperAZ) (.cls .upperAZ)) capWord, .wb]

/-- Pattern 2, street addresses:
`/\b\d+\s+([A-Z][a-z]+(?:\s+[A-Z][a-z]+)*\s+(?:Street|St|Avenue|Ave|Road|Rd|Boulevard|Blvd|Drive|Dr|Lane|Ln|Way|Place|Pl))\b/gi`. -/
def reStreetAddress : RE :=
  seqList [.wb, plusRE (.cls .digit), wsPlus, capWords, wsPlus,
    altStrs ["Street", "St", "Avenue", "Ave", "Road", "Rd", "Boulevard",
      "Blvd", "Drive", "Dr", "Lane", "Ln", "Way", "Place", "Pl"], .wb]

/-- Pattern 3, neighborhoods and areas:
`/\b(?:in|at|near|around)\s+([A-Z][a-z]+(?:\s+[A-Z][a-z]+)*(?:\s+(?:Area|District|Neighborhood|Heights|Park|Center|Square|Plaza)))\b/gi`. -/
def reArea : RE :=
  seqList [.wb, altStrs ["in", "at", "near", "around"], wsPlus, capWords, wsPlus,
    altStrs ["Area", "District", "Neighborhood", "Heights", "Park",
      "Center", "Square", "Plaza"], .wb]

/-- Pattern 4, landmarks and buildings:
`/\b(?:at|near)\s+([A-Z][a-z]+(?:\s+[A-Z][a-z]+)*\s+(?:Bridge|Building|Hospital|School|University|Mall|Airport|Station))\b/gi`. -/
def reLandmark : RE :=
  seqList [.wb, altStrs ["at", "near"], wsPlus, capWords, wsPlus,
    altStrs ["Bridge", "Building", "Hospital", "School", "University",
      "Mall", "Airport", "Station"], .wb]

/-- Pattern 5, general location indicators:
`/\b(?:in|at|near)\s+([A-Z][a-z]+(?:\s+[A-Z][a-z]+)*)\b/g`. -/
def reGeneral : RE :=
  seqList [.wb, altStrs ["in", "at", "near"], wsPlus, capWords, .wb]

/-- The `locationPatterns` array: flag (`i` present?) and pattern, in the
source's declaration order. -/
def locationPatterns : List (Bool × RE) :=
  [(false, reCityState), (true, reStreetAddress), (true, reArea),
   (true, reLandmark), (false, reGeneral)]

/-- The anchored strip regex `/^(?:in|at|near|around)\s+/i` used on each
match; `m.replace(strip, '')` removes the matched head when it is there. -/
def stripLeadRE : RE :=
  .seq (altStrs ["in", "at", "near", "around"]) wsPlus

/-- Apply `m.replace(/^(?:in|at|near|around)\s+/i, '')`. -/
def stripLead (s : String) : String :=
  match reConsumed true stripLeadRE none s.data with
  | some n => String.mk (s.data.drop n)
  | none => s

/-- `String.prototype.trim()` (whitespace at both ends). -/
def jsTrim (s : String) : String :=
  String.mk (((s.data.dropWhile isWsp).reverse.dropWhile isWsp).reverse)

/-- First-occurrence deduplication with the already-emitted values as the
accumulator. -/
def dedupAux (seen : List String) : List String → List String
  | [] => []
  | x :: xs =>
    if seen.contains x then dedupAux seen xs
    else x :: dedupAux (x :: seen) xs

/-- First-occurrence deduplication, as `[...new Set(xs)]` iterates a JS
`Set` in insertion order. -/
def dedup (l : List String) : List String := dedupAux [] l

/-- Stop words excluded by `/^(the|and|but|for|are|was|were|been|have|has|had|will|would|could|should)$/i`. -/
def stopWords : List String :=
  ["the", "and", "but", "for", "are", "was", "were", "been", "have",
   "has", "had", "will", "would", "could", "should"]

/-- Candidate filter from the source: longer than two characters and not a
stop word (the stop-word regex is anchored and case-insensitive). -/
def surviving (loc : String) : Bool :=
  loc.length > 2 && !(stopWords.contains (lowerStr loc))

/-- Every candidate the five patterns discover, in discovery order: for each
pattern in declaration order, all its matches, each with the leading
`in/at/near/around` stripped and trimmed. -/
def discoveryList (d : String) : List String :=
  (locationPatterns.map
    (fun pr => (jsMatchAll pr.1 pr.2 d).map (fun m => jsTrim (stripLead m)))).flatten

/-- `extractLocationWithPatterns`: collect candidates, deduplicate, filter,
and return the first survivor, or nothing. -/
def extractLocationWithPatterns (description : String) : Option String :=
  ((dedup (discoveryList description)).filter surviving).head?

/-! ## The NER step of the location resolver

`extractLocationWithNER` posts the description to the Hugging Face NER
model. The network is embedded as a parameter: `none` stands for a call
that threw (network error, timeout or non-2xx — axios throws on all of
them; the catch block turns that into `null`), and `some` carries the
response body. A body that is not a JSON array makes the JS fall through
the `if (Array.isArray(entities))` block and return `undefined`; both
`null` and `undefined` are embedded as `none`. -/

/-- One entity of the NER response: `{ entity_group, word, score }`.
The score is never read by the extraction logic. -/
structure NEREntity where
  entity_group : String
  word : String
  score : Rat
deriving DecidableEq, Repr

/-- The NER response body: a JSON array of entities, or anything else. -/
inductive NERData where
  | notArray
  | entities (l : List NEREntity)
deriving DecidableEq, Repr

/-- The place-word test on `MISC` entities:
`ent.word.match(/\b(street|avenue|road|park|bridge|center)\b/i)`. -/
def placeWordRE : RE :=
  seqList [.wb, altStrs ["street", "avenue", "road", "park", "bridge", "center"], .wb]

/-- Does the filter of `extractLocationWithNER` keep this entity? -/
def keptEntity (e : NEREntity) : Bool :=
  e.entity_group == "LOC" || e.entity_group == "ORG" ||
    (e.entity_group == "MISC" && jsHasMatch true placeWordRE e.word)

/-- `replace(/##/g, '')`: drop every non-overlapping `##`, left to right. -/
def removeHashMarks : List Char → List Char
  | '#' :: '#' :: rest => removeHashMarks rest
  | c :: rest => c :: removeHashMarks rest
  | [] => []

/-- `extractLocationWithNER(description)`. With no API key it returns
`null` at once — the request is never built, which the embedding expresses
by ignoring the response parameter in that branch. -/
def extractLocationWithNER (hfToken : Option String) (resp : Option NERData) :
    Option String :=
  match hfToken with
  | none => none
  | some _ =>
    match resp with
    | none => none
    | some .notArray => none
    | some (.entities ents) =>
      let joined := String.intercalate " "
        (((ents.filter keptEntity).map (fun e => e.word)).filter
          (fun w => w != "" && w != "[CLS]" && w != "[SEP]"))
      let locations := jsTrim (String.mk (removeHashMarks joined.data))
      if locations == "" then none else some locations

/-! ## `extractLocation` -/

/-- The `result_data` shape (and the catch-block shape, which adds an
`error` field). Method strings are the source's: every non-empty answer is
labelled `NER+Patterns`, no answer is `Failed`, and the catch block writes
`Error`. Confidences are exact rationals. -/
structure ExtractionResult where
  location : String
  confidence : Rat
  method : String
  error : Option String := none
deriving DecidableEq, Repr

/-- The `extractedLocation` value after the NER step and the pattern
fallback: the fallback runs when NER produced nothing or `'Unknown'`. -/
def extractionAnswer (hfToken : Option String) (resp : Option NERData)
    (description : String) : Option String :=
  match extractLocationWithNER hfToken resp with
  | none => extractLocationWithPatterns description
  | some l =>
    if l == "Unknown" then extractLocationWithPatterns description else some l

/-- The `result_data` record built on the computation path:
`location: extractedLocation || 'Location extraction failed'`,
`confidence: extractedLocation ? 0.8 : 0.1`,
`method: extractedLocation ? 'NER+Patterns' : 'Failed'`. -/
def extractionResultData (hfToken : Option String) (resp : Option NERData)
    (description : String) : ExtractionResult :=
  match extractionAnswer hfToken resp description with
  | some loc => { location := loc, confidence := (8 : Rat)/10, method := "NER+Patterns" }
  | none => { location := "Location extraction failed", confidence := (1 : Rat)/10,
              method := "Failed" }

/-- `extractLocation(description)`. `exn` models an exception escaping to
the top-level catch (for example a cache failure): the catch block returns
the fixed `Error` record. `cached` is what `cache.get` returned for the
derived key (`location_extract_` plus a base64 digest of the description;
the key text plays no role in any claim); a hit is returned unchanged. -/
def extractLocation (exn : Option String) (cached : Option ExtractionResult)
    (hfToken : Option String) (resp : Option NERData) (description : String) :
    ExtractionResult :=
  match exn with
  | some msg =>
    { location := "Location extraction failed", confidence := 0,
      method := "Error", error := some msg }
  | none =>
    match cached with
    | some r => r
    | none => extractionResultData hfToken resp description

/-! ## Feed triage (`SocialMediaService`)

Reports are the record shape the service synthesizes and triages. The
`timestamp` is embedded as epoch milliseconds, the number
`new Date(r.timestamp).getTime()` yields for the ISO strings the service
writes; the sort comparator only ever uses that number. -/

/-- The `engagement` sub-record. -/
structure Engagement where
  likes : Nat
  shares : Nat
  replies : Nat
deriving DecidableEq, Repr

/-- A social-media report record. -/
structure Report where
  id : String
  user : String
  content : String
  timestamp : Int
  priority : String
  location : String
  keywords : List String
  platform : String
  verified : Bool
  engagement : Engagement
deriving DecidableEq, Repr

/-- The urgent-vocabulary list of `detectPriorityAlerts`. -/
def urgentKeywords : List String :=
  ["urgent", "sos", "emergency", "help", "trapped", "critical", "evacuation", "danger"]

/-- The filter of `detectPriorityAlerts`: the lowercased content contains
an urgent keyword, or the priority field is already `urgent`. -/
def isPriorityAlert (r : Report) : Bool :=
  urgentKeywords.any (fun k => containsSub k.data (lowerCL r.content.data)) ||
    r.priority == "urgent"

/-- `priorityOrder[p] || 0`: the fixed mapping with everything
unrecognized (including absent keys) collapsing to 0. -/
def priorityRank (p : String) : Nat :=
  if p == "urgent" then 3 else if p == "high" then 2 else
  if p == "medium" then 1 else 0

/-- The sort comparator as a boolean order: `a` may stay before `b` exactly
when the JS comparator returns a non-positive number — higher priority rank
first, ties by more recent (larger) timestamp first. -/
def alertLE (a b : Report) : Bool :=
  decide (priorityRank b.priority < priorityRank a.priority) ||
    (priorityRank a.priority == priorityRank b.priority &&
      decide (b.timestamp ≤ a.timestamp))

/-- `detectPriorityAlerts(reports)`: filter, then sort. `Array.prototype.sort`
is stable and this comparator is consistent, so its output is the unique
stable order realized by `mergeSort` under `alertLE`. -/
def detectPriorityAlerts (reports : List Report) : List Report :=
  (reports.filter isPriorityAlert).mergeSort alertLE

/-- The positive vocabulary of `analyzeSentiment`. -/
def positiveKeywords : List String :=
  ["help", "safe", "rescued", "volunteer", "support", "relief"]

/-- The negative vocabulary of `analyzeSentiment`. -/
def negativeKeywords : List String :=
  ["trapped", "danger", "emergency", "critical", "urgent", "flood", "fire"]

/-- How many positive keywords occur in the lowercased content
(each keyword counted once, by the `filter(...).length` in the source). -/
def positiveHits (r : Report) : Nat :=
  (positiveKeywords.filter (fun k => containsSub k.data (lowerCL r.content.data))).length

/-- How many negative keywords occur in the lowercased content. -/
def negativeHits (r : Report) : Nat :=
  (negativeKeywords.filter (fun k => containsSub k.data (lowerCL r.content.data))).length

/-- A report annotated by `analyzeSentiment`: the spread `{...report,
sentiment, sentiment_score}` copies every original field and adds two. -/
structure SentimentReport extends Report where
  sentiment : String
  sentiment_score : Int
deriving DecidableEq, Repr

/-- Annotation of one report: `neutral` unless one count exceeds the other;
the score is the signed difference of the two counts. -/
def annotateSentiment (r : Report) : SentimentReport :=
  let positiveCount := positiveHits r
  let negativeCount := negativeHits r
  let sentiment :=
    if negativeCount > positiveCount then "negative"
    else if positiveCount > negativeCount then "positive"
    else "neutral"
  { r with sentiment := sentiment,
           sentiment_score := (positiveCount : Int) - (negativeCount : Int) }

/-- `analyzeSentiment(reports)`: map, building new records. -/
def analyzeSentiment (reports : List Report) : List SentimentReport :=
  reports.map annotateSentiment

/-- The eight fixture reports of `generateEnhancedMockReports`, with
timestamps as offsets from `now` (`Date.now()`). -/
def baseReports (now : Int) (disasterId : String) : List Report :=
  [{ id := "tweet_" ++ disasterId ++ "_1",
     user := "citizen_reporter",
     content := "#FloodAlert Water levels rising rapidly in downtown area. Multiple streets flooded. Avoid 5th Avenue between 42nd and 50th Street. Emergency services on scene.",
     timestamp := now - 15 * 60 * 1000,
     priority := "urgent",
     location := "Manhattan, NYC",
     keywords := ["flood", "emergency", "water", "streets"],
     platform := "Twitter",
     verified := true,
     engagement := { likes := 234, shares := 89, replies := 45 } },
   { id := "tweet_" ++ disasterId ++ "_2",
     user := "nyc_emergency",
     content := "🚨 EMERGENCY ALERT: Evacuation order issued for Lower East Side residents. Proceed to designated shelters immediately. Transportation available at community centers.",
     timestamp := now - 25 * 60 * 1000,
     priority := "urgent",
     location := "Lower East Side, NYC",
     keywords := ["evacuation", "emergency", "shelter", "transportation"],
     platform := "Twitter",
     verified := true,
     engagement := { likes := 567, shares := 234, replies := 78 } },
   { id := "tweet_" ++ disasterId ++ "_3",
     user := "volunteer_helper",
     content := "Setting up emergency food distribution at Central Park. Hot meals and water available. Volunteers needed! #DisasterRelief #NYC",
     timestamp := now - 45 * 60 * 1000,
     priority := "medium",
     location := "Central Park, NYC",
     keywords := ["food", "volunteers", "relief", "help"],
     platform := "Twitter",
     verified := false,
     engagement := { likes := 123, shares := 67, replies := 23 } },
   { id := "tweet_" ++ disasterId ++ "_4",
     user := "medical_team_nyc",
     content := "Mobile medical unit deployed to Brooklyn Bridge area. First aid and emergency medical care available. Follow safety protocols when approaching.",
     timestamp := now - 35 * 60 * 1000,
     priority := "high",
     location := "Brooklyn Bridge, NYC",
     keywords := ["medical", "first aid", "emergency", "safety"],
     platform := "Twitter",
     verified := true,
     engagement := { likes := 189, shares := 45, replies := 12 } },
   { id := "tweet_" ++ disasterId ++ "_5",
     user := "local_resident",
     content := "Power outage affecting entire block on 8th Avenue. Traffic lights down. Please drive carefully and check on elderly neighbors.",
     timestamp := now - 55 * 60 * 1000,
     priority := "medium",
     location := "8th Avenue, NYC",
     keywords := ["power", "outage", "traffic", "safety"],
     platform := "Twitter",
     verified := false,
     engagement := { likes := 67, shares := 23, replies := 8 } },
   { id := "tweet_" ++ disasterId ++ "_6",
     user := "fire_dept_nyc",
     content := "🔥 Structure fire contained at 123 Main St. Area secured. Residents from adjacent buildings evacuated as precaution. Air quality monitoring in progress.",
     timestamp := now - 65 * 60 * 1000,
     priority := "high",
     location := "Main Street, NYC",
     keywords := ["fire", "evacuation", "air quality", "safety"],
     platform := "Twitter",
     verified := true,
     engagement := { likes := 345, shares := 123, replies := 56 } },
   { id := "tweet_" ++ disasterId ++ "_7",
     user := "community_leader",
     content := "Community center at 456 Oak St open as temporary shelter. Blankets, food, and phone charging stations available. Pet-friendly facility.",
     timestamp := now - 75 * 60 * 1000,
     priority := "medium",
     location := "Oak Street, NYC",
     keywords := ["shelter", "community", "pets", "charging"],
     platform := "Twitter",
     verified := false,
     engagement := { likes := 156, shares := 78, replies := 34 } },
   { id := "tweet_" ++ disasterId ++ "_8",
     user := "transport_update",
     content := "Subway lines 4, 5, 6 suspended due to flooding. Bus service rerouted. Check MTA app for real-time updates. Free rides to evacuation centers.",
     timestamp := now - 85 * 60 * 1000,
     priority := "high",
     location := "NYC Transit System",
     keywords := ["subway", "bus", "transport", "evacuation"],
     platform := "Twitter",
     verified := true,
     engagement := { likes := 445, shares := 167, replies := 89 } }]

/-- `generateEnhancedMockReports(tags, disasterId)`: the fixture set,
filtered by the caller-supplied tags when any are given — a report is kept
if some tag is a case-insensitive substring of a keyword or of the content. -/
def generateEnhancedMockReports (now : Int) (tags : List String)
    (disasterId : String) : List Report :=
  let base := baseReports now disasterId
  if tags.length > 0 then
    base.filter (fun report =>
      tags.any (fun tag =>
        report.keywords.any
          (fun keyword => containsSub (lowerCL tag.data) (lowerCL keyword.data)) ||
        containsSub (lowerCL tag.data) (lowerCL report.content.data)))
  else base

/-- Outcome of a `cache.get` call: a stored (truthy) value, a miss
(`null`/`undefined`), or a thrown error. -/
inductive CacheGetOutcome (α : Type) where
  | hit (v : α)
  | miss
  | err (msg : String)
deriving DecidableEq, Repr

/-- `fetchSocialMediaReports(disasterId, tags)`: cached batch on a hit,
otherwise generate, cache with a 0.5-hour TTL, and return; any error thrown
inside the try block (a failing cache read or write) is caught and turned
into the empty list. `setErr` is the outcome of the `cache.set` call. -/
def fetchSocialMediaReports (getOutcome : CacheGetOutcome (List Report))
    (setErr : Option String) (now : Int) (disasterId : String)
    (tags : List String) : List Report :=
  match getOutcome with
  | .err _ => []
  | .hit v => v
  | .miss =>
    let mockReports := generateEnhancedMockReports now tags disasterId
    match setErr with
    | some _ => []
    | none => mockReports

/-! ## Image verification (`GeminiService.verifyImage`)

The two network calls of the advanced path (binary image fetch, then the
classification post) and the header request of the basic path are embedded
as `Except` parameters: `.error` is a throw (axios throws on network
failures, timeouts and non-2xx responses alike), `.ok` the payload. The
classification body is either a well-formed label/score array or anything
else (`notArray`); `details` values are carried as strings in the model. -/

/-- The result shape every image path returns. Status strings are the
source's: `invalid`, `basic_check`, `analyzed`, `authentic`, `error`. -/
structure VerificationResult where
  status : String
  analysis : String
  confidence : Rat
  details : List (String × String)
deriving DecidableEq, Repr

/-- One classification: `{ label, score }`. -/
structure LabelScore where
  label : String
  score : Rat
deriving DecidableEq, Repr

/-- A classification response body. -/
inductive ClassifyBody where
  | notArray
  | arr (items : List LabelScore)
deriving DecidableEq, Repr

/-- Header response of the basic path; either header may be absent. -/
structure HeadResp where
  contentType : Option String
  contentLength : Option String
deriving DecidableEq, Repr

/-- Render an absent header as JS string interpolation renders `undefined`. -/
def optStr : Option String → String
  | some s => s
  | none => "undefined"

/-- Rendering of the raw classification payload for the `details` map
(the model's stand-in for the raw JSON). -/
def renderBody : ClassifyBody → String
  | .notArray => "non-array response"
  | .arr items => toString (items.map (fun i => (i.label, i.score)))

/-- `v.toFixed(1)` for the non-negative rationals the model uses: round to
one decimal digit, half away from zero. -/
def toFixed1 (v : Rat) : String :=
  let n : Int := (v * 10 + 1/2).floor
  toString (n / 10) ++ "." ++ toString (n % 10)

/-- The disaster-vocabulary list checked against the top label. -/
def disasterKeywords : List String :=
  ["flood", "fire", "damage", "destruction", "emergency", "disaster"]

/-- `analyzeImageWithHuggingFace(imageUrl)`. Any throw from either network
call is rethrown wrapped, which the caller's catch receives; a successful
classification defaults to `analyzed` with confidence 0.7 and a generic
text, upgraded from the top label when the response is a non-empty array. -/
def analyzeImageWithHuggingFace (fetchOutcome : Except String Nat)
    (classifyOutcome : Except String ClassifyBody) (nowIso : String) :
    Except String VerificationResult :=
  match fetchOutcome with
  | .error m => .error ("Hugging Face analysis failed: " ++ m)
  | .ok imageSize =>
    match classifyOutcome with
    | .error m => .error ("Hugging Face analysis failed: " ++ m)
    | .ok analysis =>
      match analysis with
      | .arr (topResult :: rest) =>
        let analysisText := "Image classification: " ++ topResult.label ++
          " (confidence: " ++ toFixed1 (topResult.score * 100) ++ "%)"
        let isDisasterRelated := disasterKeywords.any
          (fun keyword => containsSub keyword.data (lowerCL topResult.label.data))
        let status := if isDisasterRelated then "authentic" else "analyzed"
        let analysisText :=
          if isDisasterRelated then
            analysisText ++ " - Appears to be disaster-related content"
          else analysisText
        .ok { status := status, analysis := analysisText,
              confidence := topResult.score,
              details := [("raw_analysis", renderBody (.arr (topResult :: rest))),
                          ("image_size", toString imageSize),
                          ("timestamp", nowIso)] }
      | b =>
        .ok { status := "analyzed", analysis := "Image analyzed successfully",
              confidence := (7 : Rat)/10,
              details := [("raw_analysis", renderBody b),
                          ("image_size", toString imageSize),
                          ("timestamp", nowIso)] }

/-- `analyzeImageBasic(imageUrl)`: header-only request; a throw is
rethrown wrapped; a non-image or absent content type is `invalid`,
otherwise `basic_check` with confidence 0.5. -/
def analyzeImageBasic (headOutcome : Except String HeadResp) :
    Except String VerificationResult :=
  match headOutcome with
  | .error m => .error ("Basic image validation failed: " ++ m)
  | .ok h =>
    match h.contentType with
    | some ct =>
      if startsWithL ("image/".data) ct.data then
        .ok { status := "basic_check",
              analysis := "Image URL validated. Type: " ++ ct ++ ", Size: " ++
                optStr h.contentLength ++ " bytes",
              confidence := (5 : Rat)/10,
              details := [("content_type", ct),
                          ("content_length", optStr h.contentLength),
                          ("method", "basic_validation")] }
      else
        .ok { status := "invalid", analysis := "URL does not point to a valid image",
              confidence := 0, details := [("content_type", ct)] }
    | none =>
      .ok { status := "invalid", analysis := "URL does not point to a valid image",
            confidence := 0, details := [("content_type", "undefined")] }

/-- Characters a URL scheme may contain after its leading letter. -/
def schemeChar (c : Char) : Bool :=
  isUpperAZ c || isLowerAZ c || isDigitC c || c == '+' || c == '-' || c == '.'

/-- Split a URL into its scheme (lowercased) and the remainder after the
colon, following the WHATWG parser `new URL` uses: leading and trailing
control-or-space characters are stripped, and parsing fails without a
syntactic `scheme:` head. -/
def urlSchemeSplit (url : String) : Option (String × List Char) :=
  let cs := ((url.data.dropWhile (fun c => c.toNat ≤ 32)).reverse.dropWhile
    (fun c => c.toNat ≤ 32)).reverse
  match cs with
  | [] => none
  | c :: _ =>
    if isUpperAZ c || isLowerAZ c then
      let sch := cs.takeWhile schemeChar
      match cs.drop sch.length with
      | ':' :: after => some (String.mk (lowerCL sch), after)
      | _ => none
    else none

/-- The hostname of an `http`/`https` remainder: skip the slashes, take the
authority up to a path/query/fragment delimiter, drop any userinfo, and
stop at the port separator. -/
def httpHostname (after : List Char) : List Char :=
  let auth := (after.dropWhile (fun c => c == '/' || c == '\\')).takeWhile
    (fun c => c != '/' && c != '?' && c != '#' && c != '\\')
  let host := (auth.reverse.takeWhile (fun c => c != '@')).reverse
  host.takeWhile (fun c => c != ':')

/-- `isValidImageUrl(url)`: `new URL(url)` must succeed and the protocol
must be `http:` or `https:` — for those special schemes the WHATWG parser
additionally demands a non-empty well-formed host. -/
def isValidImageUrl (url : String) : Bool :=
  match urlSchemeSplit url with
  | none => false
  | some (sch, after) =>
    (sch == "http" || sch == "https") &&
      (let hostname := httpHostname after
       !hostname.isEmpty && hostname.all (fun c => c != ' '))

/-- `performImageVerification(imageUrl)`: invalid URLs terminate at once;
with a credential the advanced path runs (its throw is caught here as a
terminal `error`), otherwise the basic path runs under the same catch. -/
def performImageVerification (url : String) (hfToken : Option String)
    (fetchOutcome : Except String Nat) (classifyOutcome : Except String ClassifyBody)
    (headOutcome : Except String HeadResp) (nowIso : String) : VerificationResult :=
  if !isValidImageUrl url then
    { status := "invalid", analysis := "Invalid image URL provided",
      confidence := 0, details := [("reason", "Invalid URL format")] }
  else
    match hfToken with
    | some _ =>
      match analyzeImageWithHuggingFace fetchOutcome classifyOutcome nowIso with
      | .ok r => r
      | .error m =>
        { status := "error", analysis := "Image analysis failed: " ++ m,
          confidence := 0, details := [("error", m)] }
    | none =>
      match analyzeImageBasic headOutcome with
      | .ok r => r
      | .error m =>
        { status := "error", analysis := "Image analysis failed: " ++ m,
          confidence := 0, details := [("error", m)] }

/-- `verifyImage(imageUrl)`: cached result on a hit, else compute and cache;
`exn` models an exception reaching the top-level catch (such as a cache
failure), which returns the fixed technical-error record. -/
def verifyImage (exn : Option String) (cached : Option VerificationResult)
    (url : String) (hfToken : Option String) (fetchOutcome : Except String Nat)
    (classifyOutcome : Except String ClassifyBody)
    (headOutcome : Except String HeadResp) (nowIso : String) : VerificationResult :=
  match exn with
  | some msg =>
    { status := "error", analysis := "Image verification failed due to technical error",
      confidence := 0, details := [("error", msg), ("timestamp", nowIso)] }
  | none =>
    match cached with
    | some r => r
    | none => performImageVerification url hfToken fetchOutcome classifyOutcome
        headOutcome nowIso

/-! ## Cache-write call sites

The three public operations write their results through `cache.set`. The
call sites are embedded as data: the `ttlHours` argument each one passes
(`none` when the site omits the argument, so the store default applies).
The cache store itself lives outside the service module. -/

/-- A `cache.set` call site of a public operation. -/
structure CacheSetCall where
  operation : String
  ttlHours : Option Rat
deriving DecidableEq, Repr

/-- `await this.cache.set(cacheKey, mockReports, 0.5)` — the social-media
batch write passes an explicit 0.5-hour TTL. -/
def socialMediaSetCall : CacheSetCall :=
  { operation := "fetchSocialMediaReports", ttlHours := some ((5 : Rat)/10) }

/-- `await this.cache.set(cacheKey, result_data)` — the location write
passes no TTL argument. -/
def locationSetCall : CacheSetCall :=
  { operation := "extractLocation", ttlHours := none }

/-- `await this.cache.set(cacheKey, verificationResult)` — the image write
passes no TTL argument. -/
def imageSetCall : CacheSetCall :=
  { operation := "verifyImage", ttlHours := none }

/-- Modelled from the spec: the cache store (its `set(key, value, ttlHours)`
signature with a default TTL) is not among the sources; the spec describes
`set` as applying a store default when the caller passes nothing, so that
default is taken as a parameter here. -/
def effectiveTTLHours (storeDefault : Rat) (c : CacheSetCall) : Rat :=
  c.ttlHours.getD storeDefault

/-! ## Helper lemmas -/

/-- `find?` only looks at the pointwise behaviour of its predicate. -/
theorem find?_ext {α : Type} (p q : α → Bool) (h : ∀ a, p a = q a) :
    ∀ l : List α, l.find? p = l.find? q := by
  intro l
  induction l with
  | nil => rfl
  | cons x xs ih => simp [List.find?_cons, h x, ih]

/-- Head of the filtered deduplication, with the seen-set made explicit:
it is the first element that both survives and was not seen before. -/
theorem dedupAux_filter_head (P : String → Bool) :
    ∀ (L : List String) (seen : List String),
      ((dedupAux seen L).filter P).head? =
        L.find? (fun y => P y && !(seen.contains y)) := by
  intro L
  induction L with
  | nil => intro seen; rfl
  | cons x xs ih =>
    intro seen
    have hdef : dedupAux seen (x :: xs) =
        if seen.contains x then dedupAux seen xs else x :: dedupAux (x :: seen) xs := rfl
    rw [List.find?_cons]
    cases hx : seen.contains x with
    | true =>
      rw [hdef, if_pos hx, ih seen]
      simp
    | false =>
      have hxne : ¬(seen.contains x = true) := by rw [hx]; exact Bool.false_ne_true
      rw [hdef, if_neg hxne, List.filter_cons]
      cases hp : P x with
      | true => simp
      | false =>
        rw [if_neg Bool.false_ne_true, ih (x :: seen)]
        refine Eq.trans (find?_ext _ _ (fun y => ?_) xs) (by rfl)
        by_cases hyx : y = x
        · subst hyx; rw [hp]; rfl
        · simp [List.contains_cons, hyx]

/-- The pattern fallback returns exactly the first candidate, in discovery
order, that survives the length and stop-word filters. -/
theorem patterns_first_surviving (d : String) :
    extractLocationWithPatterns d = (discoveryList d).find? surviving := by
  unfold extractLocationWithPatterns dedup
  rw [dedupAux_filter_head surviving (discoveryList d) []]
  refine find?_ext _ _ (fun y => ?_) _
  simp [List.contains]

/-- A pattern-fallback answer passed the candidate filter. -/
theorem patterns_answer_surviving (d : String) (s : String)
    (h : extractLocationWithPatterns d = some s) : surviving s = true := by
  unfold extractLocationWithPatterns at h
  cases hl : (dedup (discoveryList d)).filter surviving with
  | nil => rw [hl] at h; simp at h
  | cons a as =>
    rw [hl, List.head?_cons] at h
    have ha : a = s := by injection h
    have hm : a ∈ (dedup (discoveryList d)).filter surviving := by
      rw [hl]; exact List.mem_cons_self a as
    rw [← ha]
    exact (List.mem_filter.mp hm).2

/-- Survivors of the candidate filter are longer than two characters, in
particular non-empty. -/
theorem surviving_ne_empty (s : String) (h : surviving s = true) : s ≠ "" := by
  intro he
  subst he
  exact absurd h (by decide)

/-- A non-`null` NER extraction is a non-empty string: the source checks
the joined entity text against the empty string before returning it. -/
theorem ner_answer_ne_empty (tok : Option String) (resp : Option NERData)
    (s : String) (h : extractLocationWithNER tok resp = some s) : s ≠ "" := by
  unfold extractLocationWithNER at h
  cases tok with
  | none => simp at h
  | some t =>
    cases resp with
    | none => simp at h
    | some b =>
      cases b with
      | notArray => simp at h
      | entities ents =>
        dsimp only at h
        split at h
        · simp at h
        · rename_i hc
          have h2 := Option.some.inj h
          rw [← h2]
          intro he
          exact hc (by rw [he]; rfl)

/-- Any found answer — from NER or from the pattern fallback — is
non-empty. -/
theorem answer_ne_empty (tok : Option String) (resp : Option NERData)
    (d : String) (s : String) (h : extractionAnswer tok resp d = some s) :
    s ≠ "" := by
  unfold extractionAnswer at h
  cases hner : extractLocationWithNER tok resp with
  | none =>
    rw [hner] at h
    exact surviving_ne_empty s (patterns_answer_surviving d s h)
  | some l =>
    rw [hner] at h
    have h2 : (if (l == "Unknown") = true then extractLocationWithPatterns d
        else some l) = some s := h
    split at h2
    · exact surviving_ne_empty s (patterns_answer_surviving d s h2)
    · have h3 : l = s := by injection h2
      rw [← h3]
      exact ner_answer_ne_empty tok resp l hner

/-! ## Claims -/

/-- Claim C1 (corrected). With no NER credential configured,
`extractLocation` never attempts the NER step — its result is independent
of whatever the NER service might have answered — and a non-empty answer
found by the pattern fallback alone is returned with confidence 0.8 but
with method `NER+Patterns` (the code string realizing `NER_AND_PATTERNS`):
the source labels every non-empty answer that way, and no patterns-only
method value exists in the code. -/
theorem claim_C1_theorem (description : String) (exn : Option String)
    (cached : Option ExtractionResult) (resp resp2 : Option NERData) :
    extractLocation exn cached none resp description =
      extractLocation exn cached none resp2 description ∧
    (∀ s, extractLocationWithPatterns description = some s →
      extractLocation none none none resp description =
        { location := s, confidence := (8 : Rat)/10, method := "NER+Patterns",
          error := none }) := by
  constructor
  · cases exn with
    | some m => rfl
    | none =>
      cases cached with
      | some r => rfl
      | none => rfl
  · intro s hs
    have h2 : extractLocation none none none resp description =
        match extractLocationWithPatterns description with
        | some loc =>
          { location := loc, confidence := (8 : Rat)/10, method := "NER+Patterns",
            error := none }
        | none =>
          { location := "Location extraction failed", confidence := (1 : Rat)/10,
            method := "Failed", error := none } := rfl
    rw [h2, hs]

/-- Claim C1 counterexample. On the description `"in Paris"` with no
credential configured (and no cache hit), the pattern fallback alone finds
`"Paris"`, yet the returned method is `NER+Patterns` — the code string for
`NER_AND_PATTERNS` — contradicting both that the method is never
`NER_AND_PATTERNS` without a credential and that a pattern-only answer
carries method `PATTERNS_ONLY`. -/
theorem claim_C1_counterexample :
    extractLocation none none none none "in Paris" =
      { location := "Paris", confidence := (8 : Rat)/10,
        method := "NER+Patterns", error := none } := rfl

/-- Claim C1 witness: the amended theorem applied at `"in Paris"`. -/
theorem claim_C1_witness :
    extractLocationWithPatterns "in Paris" = some "Paris" ∧
    extractLocation none none none none "in Paris" =
      { location := "Paris", confidence := (8 : Rat)/10,
        method := "NER+Patterns", error := none } :=
  ⟨by decide, ( claim_C1_theorem "in Paris" none none none none).2 "Paris" (by decide)⟩

/-- Claim C7 (confirmed). When the primary NER step yields nothing, the
answer of the fallback is the first candidate, in original discovery order
across the five pattern families applied in declaration order, that
survives the duplicate removal, the stop-word filter and the length
filter — and nothing when no candidate survives (`find?` returning `none`
exactly then). -/
theorem claim_C7_theorem (hfToken : Option String) (resp : Option NERData)
    (d : String) (h : extractLocationWithNER hfToken resp = none) :
    extractionAnswer hfToken resp d = (discoveryList d).find? surviving := by
  unfold extractionAnswer
  rw [h]
  exact patterns_first_surviving d

/-- Claim C7 witness: with no credential the NER step yields nothing, and
on `"in Paris"` the first surviving discovered candidate is `"Paris"`. -/
theorem claim_C7_witness :
    extractLocationWithNER none none = none ∧
    extractionAnswer none none "in Paris" = (discoveryList "in Paris").find? surviving ∧
    (discoveryList "in Paris").find? surviving = some "Paris" :=
  ⟨rfl, claim_C7_theorem none none "in Paris" rfl, by decide⟩

/-- Claim C4 (confirmed). Reading the enum through the code's strings —
`NER+Patterns` realizes `NER_AND_PATTERNS`, and the two failure spellings
`Failed` (evaluation ran, no answer) and `Error` (outright error) realize
`FAILED` — every result of `extractLocation` (computing, not a cache hit)
has a method among these three strings and no other; a found answer is
non-empty and comes back with confidence 0.8, no answer with confidence
0.1 and method `Failed`, and an outright error with confidence 0 and
method `Error`. -/
theorem claim_C4_theorem (exn : Option String) (hfToken : Option String)
    (resp : Option NERData) (d : String) (r : ExtractionResult)
    (hr : r = extractLocation exn none hfToken resp d) :
    (r.method = "NER+Patterns" ∨ r.method = "Failed" ∨ r.method = "Error") ∧
    (∀ s, exn = none → extractionAnswer hfToken resp d = some s →
      r.location = s ∧ r.confidence = (8 : Rat)/10 ∧ s ≠ "") ∧
    (exn = none → extractionAnswer hfToken resp d = none →
      r.confidence = (1 : Rat)/10 ∧ r.method = "Failed") ∧
    (∀ m, exn = some m → r.confidence = 0 ∧ r.method = "Error") := by
  subst hr
  cases exn with
  | some m =>
    refine ⟨Or.inr (Or.inr rfl), ?_, ?_, ?_⟩
    · intro s hno
      simp at hno
    · intro hno
      simp at hno
    · intro m2 hm
      exact ⟨rfl, rfl⟩
  | none =>
    have hd : extractLocation none none hfToken resp d =
        extractionResultData hfToken resp d := rfl
    rw [hd]
    cases hans : extractionAnswer hfToken resp d with
    | some s0 =>
      have hd2 : extractionResultData hfToken resp d =
          { location := s0, confidence := (8 : Rat)/10, method := "NER+Patterns",
            error := none } := by
        unfold extractionResultData
        rw [hans]
      rw [hd2]
      refine ⟨Or.inl rfl, ?_, ?_, ?_⟩
      · intro s _ hs
        have h2 : s0 = s := by injection hs
        subst h2
        exact ⟨rfl, rfl, answer_ne_empty hfToken resp d s0 hans⟩
      · intro _ hnone
        simp at hnone
      · intro m hm
        simp at hm
    | none =>
      have hd2 : extractionResultData hfToken resp d =
          { location := "Location extraction failed", confidence := (1 : Rat)/10,
            method := "Failed", error := none } := by
        unfold extractionResultData
        rw [hans]
      rw [hd2]
      refine ⟨Or.inr (Or.inl rfl), ?_, ?_, ?_⟩
      · intro s _ hs
        simp at hs
      · intro _ _
        exact ⟨rfl, rfl⟩
      · intro m hm
        simp at hm

/-- Claim C4 witness: the theorem applied on `"in Paris"` with no
credential and no error, where the answer is `"Paris"`. -/
theorem claim_C4_witness :
    (extractLocation none none none none "in Paris").location = "Paris" ∧
    (extractLocation none none none none "in Paris").confidence = (8 : Rat)/10 := by
  have h := (claim_C4_theorem none none none "in Paris"
    (extractLocation none none none none "in Paris") rfl).2.1 "Paris" rfl (by decide)
  exact ⟨h.1, h.2.1⟩

/-- The comparator order spelled out: `a` may precede `b` iff `a` has the
strictly higher priority rank, or ranks tie and `a` is at least as
recent. -/
theorem alertLE_iff (a b : Report) : alertLE a b = true ↔
    (priorityRank b.priority < priorityRank a.priority ∨
      (priorityRank a.priority = priorityRank b.priority ∧
        b.timestamp ≤ a.timestamp)) := by
  unfold alertLE
  simp [Bool.or_eq_true, Bool.and_eq_true, decide_eq_true_eq]

/-- The comparator order is transitive. -/
theorem alertLE_trans (a b c : Report) (h1 : alertLE a b = true)
    (h2 : alertLE b c = true) : alertLE a c = true := by
  rw [alertLE_iff] at h1 h2 ⊢
  rcases h1 with h1 | ⟨h1a, h1b⟩ <;> rcases h2 with h2 | ⟨h2a, h2b⟩
  · exact Or.inl (lt_trans h2 h1)
  · exact Or.inl (by omega)
  · exact Or.inl (by omega)
  · exact Or.inr ⟨by omega, le_trans h2b h1b⟩

/-- The comparator order is total. -/
theorem alertLE_total (a b : Report) : (alertLE a b || alertLE b a) = true := by
  rw [Bool.or_eq_true, alertLE_iff, alertLE_iff]
  omega

/-- Claim C2 (confirmed). `detectPriorityAlerts` keeps exactly the reports
whose lowercased content contains one of the eight urgent words
urgent / sos / emergency / help / trapped / critical / evacuation / danger
or whose priority field is `urgent` (a permutation of that filter, hence
the same members with the same multiplicities), and its output is pairwise
ordered by priority rank descending under urgent = 3, high = 2, medium = 1,
anything else = 0, ties broken by timestamp descending. -/
theorem claim_C2_theorem (reports : List Report) :
    (detectPriorityAlerts reports).Perm (reports.filter isPriorityAlert) ∧
    (∀ r, r ∈ detectPriorityAlerts reports ↔
      (r ∈ reports ∧ (urgentKeywords.any
        (fun k => containsSub k.data (lowerCL r.content.data)) ||
        r.priority == "urgent") = true)) ∧
    (detectPriorityAlerts reports).Pairwise (fun a b =>
      priorityRank b.priority < priorityRank a.priority ∨
      (priorityRank a.priority = priorityRank b.priority ∧
        b.timestamp ≤ a.timestamp)) := by
  refine ⟨List.mergeSort_perm _ _, ?_, ?_⟩
  · intro r
    unfold detectPriorityAlerts
    rw [(List.mergeSort_perm (reports.filter isPriorityAlert) alertLE).mem_iff,
      List.mem_filter]
    exact Iff.rfl
  · exact (List.sorted_mergeSort alertLE_trans alertLE_total
      (reports.filter isPriorityAlert)).imp (fun h => (alertLE_iff _ _).mp h)

/-- Claim C3 (confirmed). `analyzeSentiment` annotates each report with a
new record that carries the original unchanged (`toReport`), a
`sentiment_score` equal to the signed difference between the number of
positive-vocabulary hits (help, safe, rescued, volunteer, support, relief)
and negative-vocabulary hits (trapped, danger, emergency, critical, urgent,
flood, fire) in the lowercased content, and a `sentiment` label that is
`positive` exactly when the score is positive, `negative` exactly when it
is negative, and `neutral` otherwise — in particular zero hits on both
lists give score 0 and `neutral`. -/
theorem claim_C3_theorem (reports : List Report) :
    analyzeSentiment reports = reports.map annotateSentiment ∧
    ∀ r : Report,
      (annotateSentiment r).toReport = r ∧
      (annotateSentiment r).sentiment_score =
        (positiveHits r : Int) - (negativeHits r : Int) ∧
      (annotateSentiment r).sentiment =
        (if 0 < (positiveHits r : Int) - (negativeHits r : Int) then "positive"
         else if (positiveHits r : Int) - (negativeHits r : Int) < 0 then "negative"
         else "neutral") := by
  refine ⟨rfl, fun r => ⟨rfl, rfl, ?_⟩⟩
  have hL : (annotateSentiment r).sentiment =
      (if negativeHits r > positiveHits r then "negative"
       else if positiveHits r > negativeHits r then "positive"
       else "neutral") := rfl
  rw [hL]
  split_ifs <;> first | rfl | omega

/-- Claim C9 (confirmed). `fetchSocialMediaReports` converts every error
its try block can see — a throwing cache read, or a throwing cache write
after a miss — into the empty report list instead of raising. -/
theorem claim_C9_theorem (g : CacheGetOutcome (List Report)) (setErr : Option String)
    (now : Int) (disasterId : String) (tags : List String) :
    (∀ m, g = .err m → fetchSocialMediaReports g setErr now disasterId tags = []) ∧
    (∀ m, g = .miss → setErr = some m →
      fetchSocialMediaReports g setErr now disasterId tags = []) := by
  constructor
  · intro m hg
    subst hg
    rfl
  · intro m hg hs
    subst hg
    subst hs
    rfl

/-- Claim C9 witness: a failing read and a failing write, both yielding the
empty batch. -/
theorem claim_C9_witness :
    fetchSocialMediaReports (.err "cache down") none 0 "d1" [] = [] ∧
    fetchSocialMediaReports .miss (some "cache write failed") 0 "d1" [] = [] :=
  ⟨(claim_C9_theorem (.err "cache down") none 0 "d1" []).1 "cache down" rfl,
   (claim_C9_theorem .miss (some "cache write failed") 0 "d1" []).2
     "cache write failed" rfl rfl⟩

/-- A successful advanced analysis is always labelled `analyzed` or
`authentic`, never a basic or error status. -/
theorem hf_ok_status (fetchOutcome : Except String Nat)
    (classifyOutcome : Except String ClassifyBody) (nowIso : String)
    (r : VerificationResult)
    (h : analyzeImageWithHuggingFace fetchOutcome classifyOutcome nowIso = .ok r) :
    r.status = "analyzed" ∨ r.status = "authentic" := by
  unfold analyzeImageWithHuggingFace at h
  cases fetchOutcome with
  | error m => simp at h
  | ok n =>
    cases classifyOutcome with
    | error m => simp at h
    | ok b =>
      cases b with
      | notArray =>
        have h2 := Except.ok.inj h
        rw [← h2]
        exact Or.inl rfl
      | arr items =>
        cases items with
        | nil =>
          have h2 := Except.ok.inj h
          rw [← h2]
          exact Or.inl rfl
        | cons top rest =>
          dsimp only at h
          have h2 := Except.ok.inj h
          rw [← h2]
          dsimp only
          split
          · exact Or.inr rfl
          · exact Or.inl rfl

/-- Claim C6 (confirmed). An input that does not parse as a URL, or whose
scheme is not `http`/`https`, makes `verifyImage` (computing, no cache hit)
return the fixed `invalid` record with confidence 0 — the same record for
every possible network outcome, so no advanced or basic analysis is ever
consulted. -/
theorem claim_C6_theorem (url : String) (hfToken : Option String)
    (fetchOutcome : Except String Nat) (classifyOutcome : Except String ClassifyBody)
    (headOutcome : Except String HeadResp) (nowIso : String)
    (h : isValidImageUrl url = false) :
    verifyImage none none url hfToken fetchOutcome classifyOutcome headOutcome nowIso =
      { status := "invalid", analysis := "Invalid image URL provided",
        confidence := 0, details := [("reason", "Invalid URL format")] } := by
  show performImageVerification url hfToken fetchOutcome classifyOutcome
    headOutcome nowIso = _
  unfold performImageVerification
  rw [h]
  rfl

/-- Claim C6 witness: `verifyImage("not a url")` is `invalid` with
confidence 0, whatever credential and network outcomes surround it. -/
theorem claim_C6_witness :
    isValidImageUrl "not a url" = false ∧
    verifyImage none none "not a url" (some "k") (.ok 1) (.ok .notArray)
      (.ok { contentType := some "image/png", contentLength := none }) "t" =
      { status := "invalid", analysis := "Invalid image URL provided",
        confidence := 0, details := [("reason", "Invalid URL format")] } :=
  ⟨by decide, claim_C6_theorem "not a url" (some "k") (.ok 1) (.ok .notArray)
    (.ok { contentType := some "image/png", contentLength := none }) "t" (by decide)⟩

/-- Claim C5 (corrected). With a credential configured and a valid URL, a
network failure or non-2xx response in the image fetch or in the
classification call yields the terminal `error` status with confidence 0,
and the basic header-check path is never consulted (the result is
independent of the header outcome and never `basic_check`); but a 2xx
classification response with a malformed — non-array or empty —
body is not an error: it yields `analyzed` with the fallback confidence
0.7. -/
theorem claim_C5_theorem (url : String) (key : String)
    (fetchOutcome : Except String Nat) (classifyOutcome : Except String ClassifyBody)
    (headOutcome headOutcome2 : Except String HeadResp) (nowIso : String)
    (hv : isValidImageUrl url = true) :
    (performImageVerification url (some key) fetchOutcome classifyOutcome
        headOutcome nowIso =
      performImageVerification url (some key) fetchOutcome classifyOutcome
        headOutcome2 nowIso) ∧
    (performImageVerification url (some key) fetchOutcome classifyOutcome
        headOutcome nowIso).status ≠ "basic_check" ∧
    (∀ m, fetchOutcome = .error m →
      (performImageVerification url (some key) fetchOutcome classifyOutcome
          headOutcome nowIso).status = "error" ∧
      (performImageVerification url (some key) fetchOutcome classifyOutcome
          headOutcome nowIso).confidence = 0) ∧
    (∀ m n, fetchOutcome = .ok n → classifyOutcome = .error m →
      (performImageVerification url (some key) fetchOutcome classifyOutcome
          headOutcome nowIso).status = "error" ∧
      (performImageVerification url (some key) fetchOutcome classifyOutcome
          headOutcome nowIso).confidence = 0) := by
  have hd : ∀ ho : Except String HeadResp,
      performImageVerification url (some key) fetchOutcome classifyOutcome ho nowIso =
        (match analyzeImageWithHuggingFace fetchOutcome classifyOutcome nowIso with
         | .ok r => r
         | .error m =>
           { status := "error", analysis := "Image analysis failed: " ++ m,
             confidence := 0, details := [("error", m)] }) := by
    intro ho
    unfold performImageVerification
    rw [hv]
    rfl
  refine ⟨by rw [hd, hd], ?_, ?_, ?_⟩
  · rw [hd]
    cases hA : analyzeImageWithHuggingFace fetchOutcome classifyOutcome nowIso with
    | error m =>
      show ("error" : String) ≠ "basic_check"
      decide
    | ok r =>
      show r.status ≠ "basic_check"
      rcases hf_ok_status fetchOutcome classifyOutcome nowIso r hA with h | h <;>
        rw [h] <;> decide
  · intro m hm
    subst hm
    rw [hd]
    exact ⟨rfl, rfl⟩
  · intro m n hn hm
    subst hn
    subst hm
    rw [hd]
    exact ⟨rfl, rfl⟩

/-- Claim C5 counterexample. With a credential and a valid URL, a 2xx
classification response whose body is not an array — a malformed
response — does not produce the claimed terminal `ERROR` with confidence
0: the status is `analyzed` and the confidence the 0.7 fallback. -/
theorem claim_C5_counterexample :
    (performImageVerification "http://example.com/a.jpg" (some "key")
      (.ok 100) (.ok .notArray)
      (.ok { contentType := none, contentLength := none })
      "2026-01-01T00:00:00.000Z").status = "analyzed" ∧
    (performImageVerification "http://example.com/a.jpg" (some "key")
      (.ok 100) (.ok .notArray)
      (.ok { contentType := none, contentLength := none })
      "2026-01-01T00:00:00.000Z").status ≠ "error" ∧
    (performImageVerification "http://example.com/a.jpg" (some "key")
      (.ok 100) (.ok .notArray)
      (.ok { contentType := none, contentLength := none })
      "2026-01-01T00:00:00.000Z").confidence = (7 : Rat)/10 := by
  refine ⟨rfl, ?_, rfl⟩
  intro hc
  exact absurd (rfl.trans hc) (by decide)

/-- Claim C5 witness: the amended theorem applied at a valid URL with a
failing image fetch. -/
theorem claim_C5_witness :
    isValidImageUrl "http://example.com/a.jpg" = true ∧
    (performImageVerification "http://example.com/a.jpg" (some "key")
      (.error "timeout of 15000ms exceeded") (.ok .notArray)
      (.ok { contentType := none, contentLength := none }) "t").status = "error" ∧
    (performImageVerification "http://example.com/a.jpg" (some "key")
      (.error "timeout of 15000ms exceeded") (.ok .notArray)
      (.ok { contentType := none, contentLength := none }) "t").confidence = 0 := by
  refine ⟨by decide, ?_⟩
  exact ( claim_C5_theorem "http://example.com/a.jpg" "key"
    (.error "timeout of 15000ms exceeded") (.ok .notArray)
    (.ok { contentType := none, contentLength := none })
    (.ok { contentType := none, contentLength := none }) "t"
    (by decide)).2.2.1 "timeout of 15000ms exceeded" rfl

/-- Claim C10 (confirmed). In the credentialed advanced path, a successful
fetch and a successful (2xx) classification whose body is not an array, or
is an empty array, produce `analyzed` with the fixed fallback confidence
0.7 and the generic text, not an error and not a label-derived
confidence. -/
theorem claim_C10_theorem (n : Nat) (nowIso : String) (b : ClassifyBody)
    (hb : b = .notArray ∨ b = .arr []) :
    analyzeImageWithHuggingFace (.ok n) (.ok b) nowIso =
      .ok { status := "analyzed", analysis := "Image analyzed successfully",
            confidence := (7 : Rat)/10,
            details := [("raw_analysis", renderBody b),
                        ("image_size", toString n), ("timestamp", nowIso)] } := by
  rcases hb with hb | hb <;> subst hb <;> rfl

/-- Claim C10 witness: the theorem applied to a non-array body. -/
theorem claim_C10_witness :
    analyzeImageWithHuggingFace (.ok 2048) (.ok .notArray) "2026-01-01T00:00:00.000Z" =
      .ok { status := "analyzed", analysis := "Image analyzed successfully",
            confidence := (7 : Rat)/10,
            details := [("raw_analysis", renderBody .notArray),
                        ("image_size", toString 2048),
                        ("timestamp", "2026-01-01T00:00:00.000Z")] } :=
  claim_C10_theorem 2048 "2026-01-01T00:00:00.000Z" .notArray (Or.inl rfl)

/-- Claim C8 counterexample. Not every cache write of the public
operations specifies its TTL at the call site: the location write and the
image write both omit the `ttlHours` argument and so rely on the store's
default. -/
theorem claim_C8_counterexample :
    locationSetCall.ttlHours = none ∧ imageSetCall.ttlHours = none :=
  ⟨rfl, rfl⟩

/-- Claim C8 (corrected). Only the social-media batch write passes its TTL
explicitly (0.5 hours); the location and image writes pass none and fall
back to the store default, and whenever that default exceeds half an hour
the social-media TTL is indeed the shorter one. -/
theorem claim_C8_theorem (storeDefault : Rat)
    (h : (5 : Rat)/10 < storeDefault) :
    socialMediaSetCall.ttlHours = some ((5 : Rat)/10) ∧
    locationSetCall.ttlHours = none ∧
    imageSetCall.ttlHours = none ∧
    effectiveTTLHours storeDefault socialMediaSetCall <
      effectiveTTLHours storeDefault locationSetCall ∧
    effectiveTTLHours storeDefault socialMediaSetCall <
      effectiveTTLHours storeDefault imageSetCall := by
  refine ⟨rfl, rfl, rfl, ?_, ?_⟩ <;>
    simpa [effectiveTTLHours, socialMediaSetCall, locationSetCall,
      imageSetCall] using h

/-- Claim C8 witness: with a one-hour store default the social-media TTL is
the shorter one. -/
theorem claim_C8_witness :
    (5 : Rat)/10 < 1 ∧
    effectiveTTLHours 1 socialMediaSetCall < effectiveTTLHours 1 locationSetCall :=
  ⟨by norm_num, ((claim_C8_theorem 1 (by norm_num)).2.2.2).1⟩

end DistResp







